import Mathlib

/-!
Verification of the exclusive-reconfiguration coordinator and dispatch layer
of the qwen-tts service (`demo.py` and `qwen_tts_api.py`).

The shared mutable coordinator state (`_MODEL_STATE` guarded by `_STATE_COND`
in `demo.py`) is embedded as the structure `CoordState`.  Sequential code
paths (`_reload_model`, the `run_*` dispatch closures, the REST handlers) are
embedded as pure functions; the external `Qwen3TTSModel.from_pretrained`
loader and the generation capabilities are passed in as function parameters.
The concurrent behaviour of `_use_model` / `_reload_model` is embedded as a
labelled transition system (`Step`, `Reachable`) whose atomic steps are
exactly the lock-held regions of the source: a condition-variable wait loop
becomes an enabledness precondition of the corresponding step.
-/

/-- Python `str.strip()`: drop whitespace at both ends (implemented over the
character list so that it evaluates inside the kernel). -/
def pyStrip (s : String) : String :=
  String.mk (((s.data.dropWhile Char.isWhitespace).reverse.dropWhile
    Char.isWhitespace).reverse)

/-- The demo checks text inputs with `if not s or not s.strip()`:
true exactly when the string is empty or whitespace-only. -/
def pyBlank (s : String) : Bool := pyStrip s = ""

/-- Python-dict update with later-set-wins `get` semantics. -/
def dictSet (d : List (String × String)) (k v : String) : List (String × String) :=
  (k, v) :: d.filter (fun p => p.1 != k)

/-- Python `d.get(k, dflt)`. -/
def dictGet (d : List (String × String)) (k dflt : String) : String :=
  (d.lookup k).getD dflt

/-- Python `s.split()`: split on whitespace runs, dropping empty pieces. -/
def pySplitWs : List Char → List Char → List (List Char)
  | [], acc => if acc.isEmpty then [] else [acc.reverse]
  | c :: rest, acc =>
    if c.isWhitespace then
      if acc.isEmpty then pySplitWs rest []
      else acc.reverse :: pySplitWs rest []
    else pySplitWs rest (c :: acc)

/-- `_title_case_display` from `demo.py`: strip, replace underscores by
spaces (a one-character pattern, so a character map), then capitalize the
first letter of each whitespace-separated word. -/
def _title_case_display (s : String) : String :=
  let t := (pyStrip s).data.map (fun c => if c = '_' then ' ' else c)
  String.intercalate " " ((pySplitWs t []).map (fun w =>
    match w with
    | [] => ""
    | c :: rest => String.mk (c.toUpper :: rest)))

/-- `_build_choices_and_map` from `demo.py`: display names plus the
display-to-raw mapping (a dict, so a later duplicate display wins). -/
def _build_choices_and_map (items : List String) :
    List String × List (String × String) :=
  if items.isEmpty then ([], [])
  else
    let display := items.map _title_case_display
    let mapping := (display.zip items).foldl (fun d p => dictSet d p.1 p.2) []
    (display, mapping)

/-- Opaque loaded engine instance (`Qwen3TTSModel`).  `tag` identifies the
loaded object; `tts_model_type` is the configuration kind reported by the
model; the two `get_supported_*` fields are `none` when the underlying model
does not expose the corresponding method. -/
structure TTSModel where
  tag : Nat
  tts_model_type : String
  get_supported_languages : Option (List String)
  get_supported_speakers : Option (List String)
deriving DecidableEq

/-- `_detect_model_kind` from `demo.py`: accept only the three known kinds,
otherwise raise `ValueError`. -/
def _detect_model_kind (tts : TTSModel) : Except String String :=
  if tts.tts_model_type = "custom_voice" ∨ tts.tts_model_type = "voice_design"
      ∨ tts.tts_model_type = "base" then
    .ok tts.tts_model_type
  else
    .error ("Unknown Qwen-TTS model type: " ++ tts.tts_model_type)

/-- The dict returned by `_build_model_state` in `demo.py`. -/
structure BuiltState where
  tts : TTSModel
  ckpt : String
  model_kind : String
  lang_choices_disp : List String
  lang_choices_ui : List String
  lang_map : List (String × String)
  spk_choices_disp : List String
  spk_map : List (String × String)
deriving DecidableEq

/-- `_build_model_state` from `demo.py`.  Fails (raising through the caller)
when the model kind is unknown. -/
def _build_model_state (tts : TTSModel) (ckpt : String) : Except String BuiltState :=
  match _detect_model_kind tts with
  | .error e => .error e
  | .ok model_kind =>
    let lp := _build_choices_and_map (tts.get_supported_languages.getD [])
    let sp := _build_choices_and_map (tts.get_supported_speakers.getD [])
    let lang_choices_ui :=
      if "Auto" ∈ lp.1 then lp.1 else "Auto" :: lp.1
    let lang_map := lp.2 ++ [("Auto", "Auto")]
    .ok ⟨tts, ckpt, model_kind, lp.1, lang_choices_ui, lang_map, sp.1, sp.2⟩

/-- The process-wide `_MODEL_STATE` dict of `demo.py`.  `active_jobs` is an
`Int` because the source decrements a Python int and tests `<= 0`. -/
structure CoordState where
  tts : Option TTSModel
  ckpt : String
  model_kind : String
  lang_choices_disp : List String
  lang_choices_ui : List String
  lang_map : List (String × String)
  spk_choices_disp : List String
  spk_map : List (String × String)
  active_jobs : Int
  reloading : Bool
deriving DecidableEq

/-- The literal initial value of `_MODEL_STATE`. -/
def bootState : CoordState :=
  ⟨none, "", "", [], [], [], [], [], 0, false⟩

/-- `_set_model_state` from `demo.py`: publish the built model state into the
coordinator (leaves `active_jobs` and `reloading` untouched). -/
def _set_model_state (s : CoordState) (b : BuiltState) : CoordState :=
  { s with
    tts := some b.tts, ckpt := b.ckpt, model_kind := b.model_kind,
    lang_choices_disp := b.lang_choices_disp,
    lang_choices_ui := b.lang_choices_ui, lang_map := b.lang_map,
    spk_choices_disp := b.spk_choices_disp, spk_map := b.spk_map }

/-- The state update performed inside the lock by `_reload_model` after the
drain wait completes: the current handle is taken and cleared before the new
model is constructed (`active_jobs` and `reloading` are not in the update). -/
def clearForReload (s : CoordState) : CoordState :=
  { s with
    tts := none, ckpt := "", model_kind := "",
    lang_choices_disp := [], lang_choices_ui := [], lang_map := [],
    spk_choices_disp := [], spk_map := [] }

/-- Failure taxonomy for a reconfigure call.  `alreadyReconfiguring` is the
outcome named by the specification; the embedding shows that `_reload_model`
never produces it. -/
inductive ReloadError
  | invalidCheckpoint (msg : String)
  | loadFailure (msg : String)
  | alreadyReconfiguring
deriving DecidableEq

/-- Sequential model of `_reload_model` from `demo.py`.  `load` stands for the
external `Qwen3TTSModel.from_pretrained`.  The drain wait
(`while active_jobs > 0: wait()`) does not change coordinator state, so the
function describes the call as run once the drain condition holds; theorems
that rely on post-drain behaviour carry the hypothesis `active_jobs = 0`.
Faithful to the source: the checkpoint is validated before any state is
touched; the reloading flag is then set unconditionally (no already-reloading
check exists); the current handle is cleared before the load is attempted; on
a load failure only the flag is reset and the error propagates. -/
def _reload_model (load : String → Except String TTSModel) (ckpt0 : String)
    (s : CoordState) : CoordState × Except ReloadError BuiltState :=
  let ckpt := pyStrip ckpt0
  if ckpt = "" then
    (s, .error (.invalidCheckpoint "Checkpoint is required."))
  else
    let s1 := clearForReload { s with reloading := true }
    match load ckpt with
    | .error e => ({ s1 with reloading := false }, .error (.loadFailure e))
    | .ok tts =>
      match _build_model_state tts ckpt with
      | .error e => ({ s1 with reloading := false }, .error (.loadFailure e))
      | .ok b => ({ _set_model_state s1 b with reloading := false }, .ok b)

/-- A configuration of the concurrent system: the shared coordinator state,
the number of operations currently between `_use_model` entry and exit
(holding a handle snapshot), and — since `_reload_model` performs no
exclusion check and the server runs handlers concurrently, any number of
reconfigure calls may overlap — the number of reconfigure threads in each of
the three phases between the lock-held regions of `_reload_model`:
`flagged` have set the reloading flag and are waiting for the drain,
`loading` have cleared the current handle and are constructing the new one
off-lock, `published` have published the new state and are about to clear
the flag.  (A reconfigure that fails its load goes from `loading` straight
to clearing the flag.) -/
structure Config where
  coord : CoordState
  holders : Nat
  flagged : Nat
  loading : Nat
  published : Nat
deriving DecidableEq

/-- Labels of the atomic lock-held regions of `demo.py`. -/
inductive StepLabel
  | acquire
  | release
  | rbegin (ckpt : String)
  | rclear
  | rpublish (b : BuiltState)
  | runflag_ok
  | runflag_fail

/-- One atomic lock-held region of `_use_model` / `_reload_model`.

* `acquire`: the entry of `_use_model`.  The wait loop
  `while reloading: wait()` re-checks the flag with the lock held after every
  wakeup, so the region can only complete when `reloading` is false; it then
  increments `active_jobs` and snapshots the current handle.
* `release`: the `finally` block of `_use_model`: decrement `active_jobs`
  (and notify, which does not change state).
* `rbegin`: `_reload_model` validates the checkpoint and then sets
  `reloading := true` unconditionally — there is no exclusion check, so this
  step is enabled no matter how many reconfigures are already in flight.
* `rclear`: a flagged reconfigure passes its drain loop
  `while active_jobs > 0: wait()`, which re-checks with the lock held, so the
  clearing update only runs when `active_jobs = 0`.
* `rpublish`: `_set_model_state` after a successful load; no condition is
  re-checked here.
* `runflag_ok` / `runflag_fail`: clearing the flag and notifying, after a
  successful publish or after a failed load respectively. -/
inductive Step : StepLabel → Config → Config → Prop
  | acquire (c : Config) (h : c.coord.reloading = false) :
      Step .acquire c
        ⟨{ c.coord with active_jobs := c.coord.active_jobs + 1 }, c.holders + 1,
          c.flagged, c.loading, c.published⟩
  | release (c : Config) (h : 0 < c.holders) :
      Step .release c
        ⟨{ c.coord with active_jobs := c.coord.active_jobs - 1 }, c.holders - 1,
          c.flagged, c.loading, c.published⟩
  | rbegin (c : Config) (ck : String) (hv : pyStrip ck ≠ "") :
      Step (.rbegin ck) c
        ⟨{ c.coord with reloading := true }, c.holders,
          c.flagged + 1, c.loading, c.published⟩
  | rclear (c : Config) (hf : 0 < c.flagged) (hd : c.coord.active_jobs = 0) :
      Step .rclear c
        ⟨clearForReload c.coord, c.holders, c.flagged - 1, c.loading + 1, c.published⟩
  | rpublish (c : Config) (b : BuiltState) (hl : 0 < c.loading) :
      Step (.rpublish b) c
        ⟨_set_model_state c.coord b, c.holders, c.flagged, c.loading - 1,
          c.published + 1⟩
  | runflag_ok (c : Config) (hp : 0 < c.published) :
      Step .runflag_ok c
        ⟨{ c.coord with reloading := false }, c.holders, c.flagged, c.loading,
          c.published - 1⟩
  | runflag_fail (c : Config) (hl : 0 < c.loading) :
      Step .runflag_fail c
        ⟨{ c.coord with reloading := false }, c.holders, c.flagged, c.loading - 1,
          c.published⟩

/-- Configurations reachable from any quiescent start (no job in flight, no
reload in progress — this covers the boot state and the state right after
`main` publishes the initially loaded model). -/
inductive Reachable : Config → Prop
  | init (s : CoordState) (h1 : s.active_jobs = 0) (h2 : s.reloading = false) :
      Reachable ⟨s, 0, 0, 0, 0⟩
  | step (l : StepLabel) (c c' : Config) : Reachable c → Step l c c' → Reachable c'

/-- Number of reconfigure calls currently in flight. -/
def rcount (c : Config) : Nat := c.flagged + c.loading + c.published

/-- Reachability along executions in which reconfigure calls never overlap:
every configuration along the way has at most one reconfigure in flight.
The source does nothing to enforce this — it is the scheduling assumption
under which the drain-gates-the-swap property below holds. -/
inductive ReachableSeq : Config → Prop
  | init (s : CoordState) (h1 : s.active_jobs = 0) (h2 : s.reloading = false) :
      ReachableSeq ⟨s, 0, 0, 0, 0⟩
  | step (l : StepLabel) (c c' : Config) : ReachableSeq c → Step l c c' →
      rcount c' ≤ 1 → ReachableSeq c'

/-- The coordinator invariant over all interleavings (overlapping
reconfigures included): `active_jobs` counts exactly the in-flight
acquisitions — no `_reload_model` region ever touches it. -/
def CoordInv (c : Config) : Prop :=
  c.coord.active_jobs = (c.holders : Int)

/-- The stronger invariant that holds along non-overlapping-reconfigure
executions: the job count still matches, at most one reconfigure is in
flight, the reloading flag is up while one is, and from the moment the
single reconfigure has cleared the handle until its flag reset the system
stays drained. -/
def SeqInv (c : Config) : Prop :=
  c.coord.active_jobs = (c.holders : Int)
  ∧ rcount c ≤ 1
  ∧ (1 ≤ rcount c → c.coord.reloading = true)
  ∧ (1 ≤ c.loading + c.published → c.coord.active_jobs = 0)

/-- The kwargs dict built by `_gen_common_kwargs` in `demo.py` and forwarded
verbatim to the generation capability.  Python floats are modelled as `ℚ`. -/
structure GenKwargs where
  max_new_tokens : Int
  temperature : ℚ
  top_k : Int
  top_p : ℚ
  repetition_penalty : ℚ
  do_sample : Bool
  subtalker_dosample : Bool
  subtalker_temperature : ℚ
  subtalker_top_k : Int
  subtalker_top_p : ℚ
deriving DecidableEq

/-- `_gen_common_kwargs` from `demo.py`: the `int(...)` / `float(...)` /
`bool(...)` coercions are identities on already-typed values, and no range
check of any kind is performed. -/
def _gen_common_kwargs (max_tokens : Int) (temp : ℚ) (top_k : Int) (top_p : ℚ)
    (rep_pen : ℚ) (do_sample : Bool) (subtalker_dosample : Bool)
    (subtalker_temp : ℚ) (subtalker_top_k : Int) (subtalker_top_p : ℚ) :
    GenKwargs :=
  ⟨max_tokens, temp, top_k, top_p, rep_pen, do_sample, subtalker_dosample,
    subtalker_temp, subtalker_top_k, subtalker_top_p⟩

/-- The `*adv_params` tuple collected from the ten advanced-parameter
widgets, in the order of `advanced_params` in `demo.py`. -/
structure AdvParams where
  max_tokens : Int
  temp : ℚ
  top_k : Int
  top_p : ℚ
  rep_pen : ℚ
  do_sample : Bool
  subtalker_dosample : Bool
  subtalker_temp : ℚ
  subtalker_top_k : Int
  subtalker_top_p : ℚ
deriving DecidableEq

/-- `_gen_common_kwargs(*adv_params)`. -/
def advKwargs (a : AdvParams) : GenKwargs :=
  _gen_common_kwargs a.max_tokens a.temp a.top_k a.top_p a.rep_pen
    a.do_sample a.subtalker_dosample a.subtalker_temp a.subtalker_top_k
    a.subtalker_top_p

/-- Arguments handed to `tts.generate_custom_voice`. -/
structure CustomVoiceArgs where
  text : String
  language : String
  speaker : String
  instruct : Option String
  kwargs : GenKwargs
deriving DecidableEq

/-- Arguments handed to `tts.generate_voice_clone` (`ref_aud` is the
normalized `(wav, sr)` tuple, both components opaque). -/
structure VoiceCloneArgs where
  text : String
  language : String
  ref_aud : Nat × Nat
  ref_text : Option String
  x_vector_only_mode : Bool
  kwargs : GenKwargs
deriving DecidableEq

/-- Outcome of one Gradio dispatch closure over custom voice: the
`(audio_widget_value, status_text)` pair, plus whether the call entered and
left the `_use_model` scope and the arguments the engine was invoked with
(`none` when the engine was never invoked). -/
structure InstructResult where
  wav_out : Option (Nat × Nat)
  status : String
  acquired : Bool
  released : Bool
  engine_args : Option CustomVoiceArgs
deriving DecidableEq

/-- The tail of `run_instruct` after the engine has been invoked:
`wavs[0]` is served on success (an empty waveform list raises `IndexError`,
caught by the enclosing `except`), and any engine exception becomes a status
message; the `_use_model` scope has been entered and is left on every one of
these paths. -/
def finishInstruct (args : CustomVoiceArgs) (r : Except String (List Nat × Nat)) :
    InstructResult :=
  match r with
  | .error e => ⟨none, "❌ " ++ e, true, true, some args⟩
  | .ok ([], _) =>
    ⟨none, "❌ IndexError: list index out of range", true, true, some args⟩
  | .ok (w :: _, sr) => ⟨some (sr, w), "✅ Generation complete!", true, true, some args⟩

/-- `run_instruct` from `demo.py`, over a snapshot of the coordinator state
taken by `_use_model`.  `engine` stands for `tts.generate_custom_voice`; its
error string models `type(e).__name__: e`.  Every path that acquires the
handle also releases it (the `with` statement runs the context manager exit
before the `return` delivers the outcome, and the `except` catches after
exit). -/
def run_instruct (s : CoordState)
    (engine : CustomVoiceArgs → Except String (List Nat × Nat))
    (text lang_disp spk_disp instruct : String) (adv : AdvParams) :
    InstructResult :=
  if pyBlank text then ⟨none, "❌ Text is required.", false, false, none⟩
  else if spk_disp = "" then ⟨none, "❌ Speaker is required.", false, false, none⟩
  else if s.tts.isNone then ⟨none, "❌ Model not loaded.", true, true, none⟩
  else if s.model_kind ≠ "custom_voice" then
    ⟨none, "❌ Current model does not support CustomVoice.", true, true, none⟩
  else
    let language := dictGet s.lang_map lang_disp "Auto"
    let speaker := dictGet s.spk_map spk_disp spk_disp
    let instr := if pyStrip instruct = "" then none else some (pyStrip instruct)
    let args : CustomVoiceArgs := ⟨pyStrip text, language, speaker, instr, advKwargs adv⟩
    finishInstruct args (engine args)

/-- Outcome of the Gradio voice-clone dispatch closure. -/
structure CloneResult where
  wav_out : Option (Nat × Nat)
  status : String
  acquired : Bool
  released : Bool
  engine_args : Option VoiceCloneArgs
deriving DecidableEq

/-- The tail of `run_voice_clone` after the engine has been invoked
(mirrors `finishInstruct`). -/
def finishClone (args : VoiceCloneArgs) (r : Except String (List Nat × Nat)) :
    CloneResult :=
  match r with
  | .error e => ⟨none, "❌ " ++ e, true, true, some args⟩
  | .ok ([], _) =>
    ⟨none, "❌ IndexError: list index out of range", true, true, some args⟩
  | .ok (w :: _, sr) => ⟨some (sr, w), "✅ Generation complete!", true, true, some args⟩

/-- `run_voice_clone` from `demo.py`.  `ref_aud` is the result of
`_audio_to_tuple` on the widget value: `none` for a missing or unusable
reference recording.  Validation (target text, reference recording, and the
transcript-or-x-vector rule) happens before `_use_model` is entered. -/
def run_voice_clone (s : CoordState)
    (engine : VoiceCloneArgs → Except String (List Nat × Nat))
    (ref_aud : Option (Nat × Nat)) (ref_txt : String) (use_xvec : Bool)
    (text lang_disp : String) (adv : AdvParams) : CloneResult :=
  if pyBlank text then ⟨none, "❌ Target text is required.", false, false, none⟩
  else
    match ref_aud with
    | none => ⟨none, "❌ Reference audio is required.", false, false, none⟩
    | some at0 =>
      if use_xvec = false ∧ pyBlank ref_txt then
        ⟨none, "❌ Reference text is required when x-vector only mode is NOT enabled.\nEither provide reference text or enable x-vector only mode (though quality will be lower).", false, false, none⟩
      else if s.tts.isNone then ⟨none, "❌ Model not loaded.", true, true, none⟩
      else if s.model_kind ≠ "base" then
        ⟨none, "❌ Current model does not support voice cloning.", true, true, none⟩
      else
        let language := dictGet s.lang_map lang_disp "Auto"
        let rt := if ref_txt = "" then none else some (pyStrip ref_txt)
        let args : VoiceCloneArgs :=
          ⟨pyStrip text, language, at0, rt, use_xvec, advKwargs adv⟩
        finishClone args (engine args)

/-- The module-level globals of `qwen_tts_api.py`. -/
structure ApiState where
  tts_model : Option TTSModel
  model_kind : Option String
  model_checkpoint : Option String
deriving DecidableEq

/-- The pydantic `TTSRequest` of `qwen_tts_api.py`: field defaults only, no
range constraint is declared on any field. -/
structure TTSRequest where
  text : String
  language : String := "Auto"
  max_new_tokens : Int := 2048
  temperature : ℚ := 0.9
  top_k : Int := 50
  top_p : ℚ := 1.0
  repetition_penalty : ℚ := 1.05
  do_sample : Bool := true
  subtalker_dosample : Bool := true
  subtalker_temperature : ℚ := 0.9
  subtalker_top_k : Int := 50
  subtalker_top_p : ℚ := 1.0
deriving DecidableEq

/-- The pydantic `CustomVoiceRequest`. -/
structure CustomVoiceRequest extends TTSRequest where
  speaker : String := "Vivian"
  instruct : Option String := none
deriving DecidableEq

/-- A FastAPI `HTTPException`. -/
structure HTTPErrorResp where
  status_code : Nat
  detail : String
deriving DecidableEq

/-- Python `f"{optional_str}"`. -/
def optStr (o : Option String) : String := o.getD "None"

/-- The kwargs dict a REST handler builds from its request fields. -/
def requestKwargs (r : TTSRequest) : GenKwargs :=
  ⟨r.max_new_tokens, r.temperature, r.top_k, r.top_p, r.repetition_penalty,
    r.do_sample, r.subtalker_dosample, r.subtalker_temperature,
    r.subtalker_top_k, r.subtalker_top_p⟩

instance {e a : Type} [DecidableEq e] [DecidableEq a] : DecidableEq (Except e a) :=
  fun x y =>
    match x, y with
    | .error ex, .error ey =>
      if h : ex = ey then isTrue (by rw [h])
      else isFalse (fun hc => by cases hc; exact h rfl)
    | .error _, .ok _ => isFalse (fun hc => by cases hc)
    | .ok _, .error _ => isFalse (fun hc => by cases hc)
    | .ok ax, .ok ay =>
      if h : ax = ay then isTrue (by rw [h])
      else isFalse (fun hc => by cases hc; exact h rfl)

/-- Outcome of a REST handler: the HTTP result (the served wav abstracted to
its first sample row and rate) plus the engine invocation record. -/
structure ApiCustomVoiceResult where
  response : Except HTTPErrorResp (Nat × Nat)
  engine_args : Option CustomVoiceArgs
deriving DecidableEq

/-- The tail of a REST handler serving `generate_custom_voice` output:
the served file is abstracted to `(wavs[0], sr)`, engine exceptions (and the
`IndexError` on an empty list) become a 500. -/
def apiFinishCV (args : CustomVoiceArgs) (r : Except String (List Nat × Nat)) :
    ApiCustomVoiceResult :=
  match r with
  | .error e => ⟨.error ⟨500, e⟩, some args⟩
  | .ok ([], _) => ⟨.error ⟨500, "list index out of range"⟩, some args⟩
  | .ok (w :: _, sr) => ⟨.ok (w, sr), some args⟩

/-- The `custom_voice` REST handler of `qwen_tts_api.py`: 503 when no model
was ever loaded, 400 when the loaded kind is not `custom_voice`, otherwise
the request fields are forwarded verbatim to `generate_custom_voice` (no
text or range validation), with any engine exception mapped to a 500. -/
def custom_voice (st : ApiState)
    (engine : CustomVoiceArgs → Except String (List Nat × Nat))
    (req : CustomVoiceRequest) : ApiCustomVoiceResult :=
  match st.tts_model with
  | none => ⟨.error ⟨503, "Model not loaded"⟩, none⟩
  | some _ =>
    if st.model_kind ≠ some "custom_voice" then
      ⟨.error ⟨400, "Custom voice not supported for " ++ optStr st.model_kind ++ " model"⟩,
        none⟩
    else
      let args : CustomVoiceArgs :=
        ⟨req.text, req.language, req.speaker, req.instruct, requestKwargs req.toTTSRequest⟩
      apiFinishCV args (engine args)

/-- The form fields of the `voice_clone` REST handler.  `ref_aud` is the
uploaded reference recording: the framework rejects a request without it
before the handler runs, so the field is not optional. -/
structure VoiceCloneForm where
  text : String
  language : String := "Auto"
  ref_aud : Nat
  ref_text : Option String := none
  x_vector_only : Bool := false
  req : TTSRequest := { text := "" }
deriving DecidableEq

/-- Outcome of the `voice_clone` REST handler. -/
structure ApiVoiceCloneResult where
  response : Except HTTPErrorResp (Nat × Nat)
  engine_args : Option VoiceCloneArgs
deriving DecidableEq

/-- The tail of the `voice_clone` REST handler (mirrors `apiFinishCV`). -/
def apiFinishVC (args : VoiceCloneArgs) (r : Except String (List Nat × Nat)) :
    ApiVoiceCloneResult :=
  match r with
  | .error e => ⟨.error ⟨500, e⟩, some args⟩
  | .ok ([], _) => ⟨.error ⟨500, "list index out of range"⟩, some args⟩
  | .ok (w :: _, sr) => ⟨.ok (w, sr), some args⟩

/-- The `voice_clone` REST handler of `qwen_tts_api.py`.  Decoding and
resampling of the upload are opaque and yield a mono 12000 Hz tuple.  Unlike
the Gradio dispatcher, this handler has no transcript rule: a missing
`ref_text` with `x_vector_only` off is forwarded to the engine unchanged
(`ref_text if ref_text else None`). -/
def voice_clone (st : ApiState)
    (engine : VoiceCloneArgs → Except String (List Nat × Nat))
    (form : VoiceCloneForm) : ApiVoiceCloneResult :=
  match st.tts_model with
  | none => ⟨.error ⟨503, "Model not loaded"⟩, none⟩
  | some _ =>
    if st.model_kind ≠ some "base" then
      ⟨.error ⟨400, "Voice cloning not supported for " ++ optStr st.model_kind ++ " model"⟩,
        none⟩
    else
      let rt : Option String :=
        match form.ref_text with
        | none => none
        | some t => if t = "" then none else some t
      let args : VoiceCloneArgs :=
        ⟨form.text, form.language, (form.ref_aud, 12000), rt, form.x_vector_only,
          requestKwargs form.req⟩
      apiFinishVC args (engine args)

/-! Concrete fixtures used by the closed scenario theorems below. -/

/-- A loaded CustomVoice engine instance. -/
def cvModel : TTSModel := ⟨1, "custom_voice", some ["english"], some ["vivian"]⟩

/-- A loaded Base (voice clone) engine instance. -/
def baseModel : TTSModel := ⟨2, "base", some ["english"], none⟩

/-- A coordinator state serving `cvModel`. -/
def cvState : CoordState :=
  { bootState with
    tts := some cvModel, ckpt := "Qwen/CustomVoice", model_kind := "custom_voice",
    lang_choices_disp := ["English"], lang_choices_ui := ["Auto", "English"],
    lang_map := [("English", "english"), ("Auto", "Auto")],
    spk_choices_disp := ["Vivian"], spk_map := [("Vivian", "vivian")] }

/-- A coordinator state serving `baseModel`. -/
def baseState : CoordState :=
  { cvState with tts := some baseModel, ckpt := "Qwen/Base", model_kind := "base" }

/-- `cvState` while a reconfigure is in progress. -/
def busyState : CoordState := { cvState with reloading := true }

/-- The default values of the ten advanced-parameter widgets. -/
def advDefault : AdvParams := ⟨2048, 0.9, 50, 1.0, 1.05, true, true, 0.9, 50, 1.0⟩

/-- The defaults with `max_new_tokens` set to the out-of-slider-range 511. -/
def adv511 : AdvParams := { advDefault with max_tokens := 511 }

/-- The defaults with `max_new_tokens` set to the out-of-slider-range 8193. -/
def adv8193 : AdvParams := { advDefault with max_tokens := 8193 }

/-- A generation capability that always yields one waveform at 12 kHz. -/
def okEngine : CustomVoiceArgs → Except String (List Nat × Nat) :=
  fun _ => .ok ([7], 12000)

/-- A voice-clone capability that always yields one waveform at 12 kHz. -/
def okCloneEngine : VoiceCloneArgs → Except String (List Nat × Nat) :=
  fun _ => .ok ([7], 12000)

/-- A `from_pretrained` that always raises. -/
def failLoad : String → Except String TTSModel := fun _ => .error "boom"

/-- A `from_pretrained` that always yields `cvModel`. -/
def okLoad : String → Except String TTSModel := fun _ => .ok cvModel

/-- REST service globals with the Base model loaded. -/
def apiBaseState : ApiState := ⟨some baseModel, some "base", some "Qwen/Base"⟩

/-- A voice-clone form carrying reference audio but neither a transcript nor
the x-vector-only flag. -/
def cloneForm0 : VoiceCloneForm := ⟨"hi", "Auto", 3, none, false, { text := "hi" }⟩

/-- The configuration at process start. -/
def bootConfig : Config := ⟨bootState, 0, 0, 0, 0⟩

/-- `bootConfig` after one acquire step. -/
def bootAcquired : Config :=
  ⟨{ bootState with active_jobs := bootState.active_jobs + 1 }, 1, 0, 0, 0⟩

/-- `cvState` as a quiescent configuration. -/
def cvConfig : Config := ⟨cvState, 0, 0, 0, 0⟩

/-- `cvConfig` after one reconfigure set the reloading flag. -/
def cvFlagged : Config := ⟨{ cvState with reloading := true }, 0, 1, 0, 0⟩

/-- `cvFlagged` after that reconfigure's post-drain clearing update. -/
def cvCleared : Config := ⟨clearForReload cvFlagged.coord, 0, 0, 1, 0⟩

/-- The model state `_build_model_state` derives from `cvModel` at
checkpoint `Qwen/New`. -/
def cvBuilt : BuiltState :=
  ⟨cvModel, "Qwen/New", "custom_voice", ["English"], ["Auto", "English"],
    [("English", "english"), ("Auto", "Auto")], ["Vivian"], [("Vivian", "vivian")]⟩

/-- The model state `_build_model_state` derives from `baseModel` at
checkpoint `Qwen/Base` (no speaker capability). -/
def baseBuilt : BuiltState :=
  ⟨baseModel, "Qwen/Base", "base", ["English"], ["Auto", "English"],
    [("English", "english"), ("Auto", "Auto")], [], []⟩

/-- Configurations of an overlapping-reconfigure execution (both reloads
valid, the system idle): two reconfigures both set the flag, both pass the
drain while `active_jobs = 0`, the first publishes and clears the flag, an
operation then acquires a handle — and the second reconfigure's publish is
enabled from `trace7`, replacing the current handle while `active_jobs = 1`. -/
def trace2 : Config := ⟨{ cvState with reloading := true }, 0, 2, 0, 0⟩

def trace3 : Config :=
  ⟨clearForReload { cvState with reloading := true }, 0, 1, 1, 0⟩

def trace4 : Config :=
  ⟨clearForReload (clearForReload { cvState with reloading := true }), 0, 0, 2, 0⟩

def trace5 : Config := ⟨_set_model_state trace4.coord cvBuilt, 0, 0, 1, 1⟩

def trace6 : Config := ⟨{ trace5.coord with reloading := false }, 0, 0, 1, 0⟩

def trace7 : Config :=
  ⟨{ trace6.coord with active_jobs := trace6.coord.active_jobs + 1 }, 1, 0, 1, 0⟩

def trace8 : Config := ⟨_set_model_state trace7.coord baseBuilt, 1, 0, 0, 1⟩
theorem inv_preserved {l : StepLabel} {c c' : Config}
    (hi : CoordInv c) (hs : Step l c c') : CoordInv c' := by
  have h1 : c.coord.active_jobs = (c.holders : ℤ) := hi
  cases hs with
  | acquire c h =>
    show c.coord.active_jobs + 1 = ((c.holders + 1 : ℕ) : ℤ)
    omega
  | release c h =>
    show c.coord.active_jobs - 1 = ((c.holders - 1 : ℕ) : ℤ)
    omega
  | rbegin c ck hv => exact h1
  | rclear c hf hd => exact h1
  | rpublish c b hl => exact h1
  | runflag_ok c hp => exact h1
  | runflag_fail c hl => exact h1

theorem inv_reachable {c : Config} (h : Reachable c) : CoordInv c := by
  induction h with
  | init s h1 h2 =>
    show s.active_jobs = ((0 : ℕ) : ℤ)
    simp [h1]
  | step l c c' _ hs ih => exact inv_preserved ih hs

theorem seqinv_preserved {l : StepLabel} {c c' : Config}
    (hi : SeqInv c) (hs : Step l c c') (hb : rcount c' ≤ 1) : SeqInv c' := by
  obtain ⟨h1, h2, h3, h4⟩ := hi
  have h2' : c.flagged + c.loading + c.published ≤ 1 := h2
  have h3' : 1 ≤ c.flagged + c.loading + c.published → c.coord.reloading = true := h3
  have h4' : 1 ≤ c.loading + c.published → c.coord.active_jobs = 0 := h4
  cases hs with
  | acquire c h =>
    refine ⟨?_, hb, fun hge => h3' hge, fun hge => ?_⟩
    · show c.coord.active_jobs + 1 = ((c.holders + 1 : ℕ) : ℤ)
      omega
    · have hge1 : 1 ≤ c.loading + c.published := hge
      have hrel : c.coord.reloading = true := h3' (by omega)
      rw [hrel] at h
      cases h
  | release c h =>
    refine ⟨?_, hb, fun hge => h3' hge, fun hge => ?_⟩
    · show c.coord.active_jobs - 1 = ((c.holders - 1 : ℕ) : ℤ)
      omega
    · have hge1 : 1 ≤ c.loading + c.published := hge
      have hz := h4' hge1
      omega
  | rbegin c ck hv =>
    refine ⟨h1, hb, fun _ => rfl, fun hge => ?_⟩
    exact h4' hge
  | rclear c hf hd =>
    refine ⟨h1, hb, fun _ => ?_, fun _ => hd⟩
    exact h3' (by omega)
  | rpublish c b hl =>
    refine ⟨h1, hb, fun _ => ?_, fun _ => ?_⟩
    · exact h3' (by omega)
    · exact h4' (by omega)
  | runflag_ok c hp =>
    refine ⟨h1, hb, fun hge => ?_, fun _ => ?_⟩
    · have hge1 : 1 ≤ c.flagged + c.loading + (c.published - 1) := hge
      exact absurd hge1 (by omega)
    · exact h4' (by omega)
  | runflag_fail c hl =>
    refine ⟨h1, hb, fun hge => ?_, fun _ => ?_⟩
    · have hge1 : 1 ≤ c.flagged + (c.loading - 1) + c.published := hge
      exact absurd hge1 (by omega)
    · exact h4' (by omega)

theorem seqinv_reachable {c : Config} (h : ReachableSeq c) : SeqInv c := by
  induction h with
  | init s h1 h2 =>
    refine ⟨?_, show (0 : ℕ) + 0 + 0 ≤ 1 by decide,
      fun hge => absurd (show (1 : ℕ) ≤ 0 + 0 + 0 from hge) (by decide),
      fun hge => absurd (show (1 : ℕ) ≤ 0 + 0 from hge) (by decide)⟩
    show s.active_jobs = ((0 : ℕ) : ℤ)
    simp [h1]
  | step l c c' _ hs hb ih => exact seqinv_preserved ih hs hb

/-- C1: an acquire step (completion of the `_use_model` entry region) can
only happen from a configuration in which the reloading flag is false — an
acquire that finds the flag true stays suspended, and every completed
acquire increments `active_jobs` and hands out the current handle unchanged.
In every reachable interleaving, no acquire returns while a reconfigure is
flagged. -/
theorem c1_acquire_only_when_not_reloading (c c' : Config)
    (_hr : Reachable c) (hs : Step .acquire c c') :
    c.coord.reloading = false
    ∧ c'.coord.active_jobs = c.coord.active_jobs + 1
    ∧ c'.coord.tts = c.coord.tts := by
  cases hs with
  | acquire c h => exact ⟨h, rfl, rfl⟩

theorem c1_acquire_only_when_not_reloading_witness :
    bootConfig.coord.reloading = false
    ∧ bootAcquired.coord.active_jobs = bootConfig.coord.active_jobs + 1
    ∧ bootAcquired.coord.tts = bootConfig.coord.tts :=
  c1_acquire_only_when_not_reloading bootConfig bootAcquired
    (Reachable.init bootState rfl rfl) (Step.acquire bootConfig rfl)

/-- C2 counterexample: the claim asserts that in every execution a
reconfigure does not replace (or clear) the current handle until
`active_count` has reached 0 — but the coordinator does not serialize
reconfigures (`_reload_model` sets `reloading` unconditionally, with no
check), so two overlapping reconfigures are possible: both drain while the
system is idle, the first publishes and clears the flag, an operation then
acquires a handle, and the second reconfigure's publish replaces the
current handle from a reachable configuration with `active_jobs = 1` and a
handle outstanding. -/
theorem c2_counterexample :
    Reachable trace7
    ∧ trace7.coord.active_jobs = 1
    ∧ trace7.holders = 1
    ∧ trace7.coord.tts = some cvModel
    ∧ Step (.rpublish baseBuilt) trace7 trace8
    ∧ trace8.coord.tts = some baseModel
    ∧ trace8.coord.active_jobs = 1 := by
  refine ⟨?_, rfl, rfl, rfl, Step.rpublish trace7 baseBuilt (by decide), rfl, rfl⟩
  exact Reachable.step .acquire trace6 trace7
    (Reachable.step .runflag_ok trace5 trace6
      (Reachable.step (.rpublish cvBuilt) trace4 trace5
        (Reachable.step .rclear trace3 trace4
          (Reachable.step .rclear trace2 trace3
            (Reachable.step (.rbegin "Qwen/Base") cvFlagged trace2
              (Reachable.step (.rbegin "Qwen/New") cvConfig cvFlagged
                (Reachable.init cvState rfl rfl)
                (Step.rbegin cvConfig "Qwen/New" (by decide)))
              (Step.rbegin cvFlagged "Qwen/Base" (by decide)))
            (Step.rclear trace2 (by decide) rfl))
          (Step.rclear trace3 (by decide) rfl))
        (Step.rpublish trace4 cvBuilt (by decide)))
      (Step.runflag_ok trace5 (by decide)))
    (Step.acquire trace6 rfl)

/-- C2 (amended): in every reachable interleaving, a reconfigure's clearing
of the current handle happens only once `active_jobs` is 0 with no handle
outstanding — the reconfigure drains in-flight operations instead of
cancelling them; and along executions in which reconfigure calls never
overlap, the publication of the new handle likewise happens only while
`active_jobs` is 0 with no handle outstanding.  The coordinator itself does
not prevent overlap, and overlapping reconfigures can publish while
operations are active (see the counterexample). -/
theorem c2_drain_gates_clear_and_seq_swap :
    (∀ c c' : Config, Reachable c → Step .rclear c c' →
      c.coord.active_jobs = 0 ∧ c.holders = 0)
    ∧ (∀ (c c' : Config) (b : BuiltState), ReachableSeq c →
      Step (.rpublish b) c c' →
      c.coord.active_jobs = 0 ∧ c.holders = 0) := by
  constructor
  · intro c c' hr hs
    have h1 : c.coord.active_jobs = (c.holders : ℤ) := inv_reachable hr
    cases hs with
    | rclear c hf hd =>
      refine ⟨hd, ?_⟩
      omega
  · intro c c' b hr hs
    obtain ⟨h1, h2, h3, h4⟩ := seqinv_reachable hr
    have h1' : c.coord.active_jobs = (c.holders : ℤ) := h1
    have h4' : 1 ≤ c.loading + c.published → c.coord.active_jobs = 0 := h4
    cases hs with
    | rpublish c b hl =>
      have hz : c.coord.active_jobs = 0 := h4' (by omega)
      refine ⟨hz, ?_⟩
      omega

theorem c2_drain_gates_clear_and_seq_swap_witness :
    (cvFlagged.coord.active_jobs = 0 ∧ cvFlagged.holders = 0)
    ∧ (cvCleared.coord.active_jobs = 0 ∧ cvCleared.holders = 0) :=
  ⟨c2_drain_gates_clear_and_seq_swap.1 cvFlagged cvCleared
      (Reachable.step (.rbegin "Qwen/New") cvConfig cvFlagged
        (Reachable.init cvState rfl rfl)
        (Step.rbegin cvConfig "Qwen/New" (by decide)))
      (Step.rclear cvFlagged (by decide) rfl),
   c2_drain_gates_clear_and_seq_swap.2 cvCleared
      ⟨_set_model_state cvCleared.coord cvBuilt, 0, 0, 0, 1⟩ cvBuilt
      (ReachableSeq.step .rclear cvFlagged cvCleared
        (ReachableSeq.step (.rbegin "Qwen/New") cvConfig cvFlagged
          (ReachableSeq.init cvState rfl rfl)
          (Step.rbegin cvConfig "Qwen/New" (by decide)) (by decide))
        (Step.rclear cvFlagged (by decide) rfl) (by decide))
      (Step.rpublish cvCleared cvBuilt (by decide))⟩

theorem finishInstruct_flags (args : CustomVoiceArgs)
    (r : Except String (List Nat × Nat)) :
    (finishInstruct args r).released = (finishInstruct args r).acquired := by
  cases r with
  | error e => rfl
  | ok p =>
    obtain ⟨ws, sr⟩ := p
    cases ws <;> rfl

/-- C5: in every reachable interleaving, `active_jobs` equals the number of
outstanding handles, hence it never goes negative and is 0 exactly when no
handle is outstanding; and the dispatch closure leaves the `_use_model`
scope exactly when it entered it (the context manager decrements once on
every exit path: success, validation failure inside the scope, or engine
error). -/
theorem c5_active_count_matches_outstanding :
    (∀ c : Config, Reachable c →
      0 ≤ c.coord.active_jobs
      ∧ c.coord.active_jobs = (c.holders : ℤ)
      ∧ (c.coord.active_jobs = 0 ↔ c.holders = 0))
    ∧ (∀ (s : CoordState) (engine : CustomVoiceArgs → Except String (List Nat × Nat))
        (text lang_disp spk_disp instruct : String) (adv : AdvParams),
        (run_instruct s engine text lang_disp spk_disp instruct adv).released
          = (run_instruct s engine text lang_disp spk_disp instruct adv).acquired) := by
  constructor
  · intro c hr
    have h1 : c.coord.active_jobs = (c.holders : ℤ) := inv_reachable hr
    exact ⟨by omega, h1, by constructor <;> (intro h; omega)⟩
  · intro s engine text lang_disp spk_disp instruct adv
    unfold run_instruct
    repeat' split
    all_goals first
      | rfl
      | exact finishInstruct_flags _ _

theorem c5_active_count_matches_outstanding_witness :
    (0 ≤ bootConfig.coord.active_jobs
      ∧ bootConfig.coord.active_jobs = (bootConfig.holders : ℤ)
      ∧ (bootConfig.coord.active_jobs = 0 ↔ bootConfig.holders = 0))
    ∧ (run_instruct cvState okEngine "hi" "Auto" "Vivian" "" advDefault).released
        = (run_instruct cvState okEngine "hi" "Auto" "Vivian" "" advDefault).acquired :=
  ⟨c5_active_count_matches_outstanding.1 bootConfig (Reachable.init bootState rfl rfl),
   c5_active_count_matches_outstanding.2 cvState okEngine "hi" "Auto" "Vivian" "" advDefault⟩

theorem finishInstruct_engine_args (args : CustomVoiceArgs)
    (r : Except String (List Nat × Nat)) :
    (finishInstruct args r).engine_args = some args := by
  cases r with
  | error e => rfl
  | ok p =>
    obtain ⟨ws, sr⟩ := p
    cases ws <;> rfl

/-- C6: a custom-voice dispatch against a handle whose kind is not
`custom_voice` fails with the incompatibility outcome, never invokes the
generation capability, and still enters and leaves the `_use_model` scope
(the handle is released before the outcome is delivered); the REST handler
likewise answers 400 without touching the engine. -/
theorem c6_incompatible_never_invokes_engine :
    (∀ (s : CoordState) (engine : CustomVoiceArgs → Except String (List Nat × Nat))
        (text lang_disp spk_disp instruct : String) (adv : AdvParams),
        pyBlank text = false → spk_disp ≠ "" → s.tts.isNone = false →
        s.model_kind ≠ "custom_voice" →
        run_instruct s engine text lang_disp spk_disp instruct adv
          = ⟨none, "❌ Current model does not support CustomVoice.", true, true, none⟩)
    ∧ (∀ (st : ApiState) (engine : CustomVoiceArgs → Except String (List Nat × Nat))
        (req : CustomVoiceRequest),
        st.tts_model ≠ none → st.model_kind ≠ some "custom_voice" →
        custom_voice st engine req
          = ⟨.error ⟨400, "Custom voice not supported for "
              ++ optStr st.model_kind ++ " model"⟩, none⟩) := by
  constructor
  · intro s engine text lang_disp spk_disp instruct adv ht hsp hm hk
    simp [run_instruct, ht, hsp, hm, hk]
  · intro st engine req hm hk
    cases hcc : st.tts_model with
    | none => exact absurd hcc hm
    | some m => simp [custom_voice, hcc, hk]

theorem c6_incompatible_never_invokes_engine_witness :
    run_instruct baseState okEngine "hi" "Auto" "Vivian" "" advDefault
      = ⟨none, "❌ Current model does not support CustomVoice.", true, true, none⟩
    ∧ custom_voice apiBaseState okEngine { text := "hi" }
      = ⟨.error ⟨400, "Custom voice not supported for "
          ++ optStr apiBaseState.model_kind ++ " model"⟩, none⟩ :=
  ⟨c6_incompatible_never_invokes_engine.1 baseState okEngine "hi" "Auto" "Vivian" ""
      advDefault (by decide) (by decide) (by decide) (by decide),
   c6_incompatible_never_invokes_engine.2 apiBaseState okEngine { text := "hi" }
      (by decide) (by decide)⟩

/-- C9: when no model has ever been loaded (`tts` absent), a dispatch enters
the `_use_model` scope, observes the absent handle, and fails cleanly with
the distinct model-not-loaded outcome: no usable handle is returned, the
engine is never invoked, the scope is still released, and no exception
escapes the handler. -/
theorem c9_unavailable_when_never_loaded (s : CoordState)
    (engine : CustomVoiceArgs → Except String (List Nat × Nat))
    (text lang_disp spk_disp instruct : String) (adv : AdvParams)
    (ht : pyBlank text = false) (hsp : spk_disp ≠ "") (hm : s.tts = none) :
    run_instruct s engine text lang_disp spk_disp instruct adv
      = ⟨none, "❌ Model not loaded.", true, true, none⟩ := by
  simp [run_instruct, ht, hsp, hm]

theorem c9_unavailable_when_never_loaded_witness :
    run_instruct bootState okEngine "hi" "Auto" "Vivian" "" advDefault
      = ⟨none, "❌ Model not loaded.", true, true, none⟩ :=
  c9_unavailable_when_never_loaded bootState okEngine "hi" "Auto" "Vivian" ""
    advDefault (by decide) (by decide) rfl

/-- C7 counterexample: the claim asserts `max_new_tokens = 511` fails with a
validation error, but the dispatcher performs no range check: a dispatch
with 511 (and likewise 8193) succeeds and invokes the engine with the value
forwarded verbatim. -/
theorem c7_counterexample :
    (run_instruct cvState okEngine "hi" "Auto" "Vivian" "" adv511).status
        = "✅ Generation complete!"
    ∧ (run_instruct cvState okEngine "hi" "Auto" "Vivian" "" adv511).engine_args
        = some ⟨"hi", "Auto", "vivian", none, advKwargs adv511⟩
    ∧ (advKwargs adv511).max_new_tokens = 511
    ∧ (run_instruct cvState okEngine "hi" "Auto" "Vivian" "" adv8193).status
        = "✅ Generation complete!"
    ∧ (advKwargs adv8193).max_new_tokens = 8193 :=
  ⟨rfl, rfl, rfl, rfl, rfl⟩

/-- C7 (amended): the dispatcher applies no range validation to the
generation parameters.  `_gen_common_kwargs` only coerces the widget values
to their declared types, and every dispatch against a loaded custom-voice
handle forwards `max_new_tokens` (and the other sampling parameters)
verbatim to the engine, whatever their values; the 512-8192 bound exists
only as the UI slider limits. -/
theorem c7_params_forwarded_without_range_check (s : CoordState)
    (engine : CustomVoiceArgs → Except String (List Nat × Nat))
    (text lang_disp spk_disp instruct : String) (adv : AdvParams)
    (ht : pyBlank text = false) (hsp : spk_disp ≠ "") (hm : s.tts.isNone = false)
    (hk : s.model_kind = "custom_voice") :
    (run_instruct s engine text lang_disp spk_disp instruct adv).engine_args
      = some ⟨pyStrip text, dictGet s.lang_map lang_disp "Auto",
          dictGet s.spk_map spk_disp spk_disp,
          (if pyStrip instruct = "" then none else some (pyStrip instruct)),
          advKwargs adv⟩
    ∧ (advKwargs adv).max_new_tokens = adv.max_tokens
    ∧ (_gen_common_kwargs adv.max_tokens adv.temp adv.top_k adv.top_p adv.rep_pen
        adv.do_sample adv.subtalker_dosample adv.subtalker_temp adv.subtalker_top_k
        adv.subtalker_top_p).max_new_tokens = adv.max_tokens := by
  refine ⟨?_, rfl, rfl⟩
  have hk2 : ¬ s.model_kind ≠ "custom_voice" := by simp [hk]
  simp only [run_instruct, ht, hsp, hm, hk2, Bool.false_eq_true, if_false,
    ite_false, if_neg hsp]
  simp [finishInstruct_engine_args]

theorem c7_params_forwarded_without_range_check_witness :
    (run_instruct cvState okEngine "hi" "Auto" "Vivian" "" adv511).engine_args
      = some ⟨pyStrip "hi", dictGet cvState.lang_map "Auto" "Auto",
          dictGet cvState.spk_map "Vivian" "Vivian",
          (if pyStrip "" = "" then none else some (pyStrip "")),
          advKwargs adv511⟩
    ∧ (advKwargs adv511).max_new_tokens = adv511.max_tokens
    ∧ (_gen_common_kwargs adv511.max_tokens adv511.temp adv511.top_k adv511.top_p
        adv511.rep_pen adv511.do_sample adv511.subtalker_dosample adv511.subtalker_temp
        adv511.subtalker_top_k adv511.subtalker_top_p).max_new_tokens
        = adv511.max_tokens :=
  c7_params_forwarded_without_range_check cvState okEngine "hi" "Auto" "Vivian" ""
    adv511 (by decide) (by decide) (by decide) (by decide)

/-- C8 counterexample: the claim asserts every clone dispatch missing both
the transcript and the x-vector-only flag fails with a validation error
before the engine is invoked, but the REST `voice_clone` handler forwards a
request with no `ref_text` and `x_vector_only` off straight to the engine:
the engine is invoked (with `ref_text = None`) and the call succeeds. -/
theorem c8_counterexample :
    cloneForm0.ref_text = none
    ∧ cloneForm0.x_vector_only = false
    ∧ (voice_clone apiBaseState okCloneEngine cloneForm0).engine_args
        = some ⟨"hi", "Auto", (3, 12000), none, false, requestKwargs { text := "hi" }⟩
    ∧ (voice_clone apiBaseState okCloneEngine cloneForm0).response = .ok (7, 12000) :=
  ⟨rfl, rfl, rfl, rfl⟩

/-- C8 (amended): in the Gradio dispatcher, a clone request missing the
reference recording, or missing both the transcript and the x-vector-only
flag, fails with a validation message before `_use_model` is entered and
without invoking the engine; the REST wrapper, however, only requires the
presence of the recording upload and forwards a missing transcript (with the
flag off) unchanged to the engine. -/
theorem c8_gradio_clone_validates_before_engine (s : CoordState)
    (engine : VoiceCloneArgs → Except String (List Nat × Nat))
    (ref_aud : Option (Nat × Nat)) (ref_txt : String) (use_xvec : Bool)
    (text lang_disp : String) (adv : AdvParams)
    (ht : pyBlank text = false)
    (h : ref_aud = none ∨ (use_xvec = false ∧ pyBlank ref_txt = true)) :
    (run_voice_clone s engine ref_aud ref_txt use_xvec text lang_disp adv).engine_args
        = none
    ∧ (run_voice_clone s engine ref_aud ref_txt use_xvec text lang_disp adv).wav_out
        = none
    ∧ (run_voice_clone s engine ref_aud ref_txt use_xvec text lang_disp adv).acquired
        = false := by
  rcases h with h | ⟨hx, hr⟩
  · simp [run_voice_clone, ht, h]
  · cases ref_aud with
    | none => simp [run_voice_clone, ht]
    | some a => simp [run_voice_clone, ht, hx, hr]

theorem c8_gradio_clone_validates_before_engine_witness :
    (run_voice_clone baseState okCloneEngine none "" false "hi" "Auto" advDefault).engine_args
        = none
    ∧ (run_voice_clone baseState okCloneEngine none "" false "hi" "Auto" advDefault).wav_out
        = none
    ∧ (run_voice_clone baseState okCloneEngine none "" false "hi" "Auto" advDefault).acquired
        = false :=
  c8_gradio_clone_validates_before_engine baseState okCloneEngine none "" false
    "hi" "Auto" advDefault (by decide) (Or.inl rfl)

/-- C3 counterexample: the claim asserts a failed reconfigure leaves the
current handle untouched and in service, but `_reload_model` clears the
handle before attempting the load and its failure path does not restore it:
after a failed load the handle is gone, the flag is cleared, the error
propagates, and a subsequent dispatch fails with the model-not-loaded
outcome instead of succeeding. -/
theorem c3_counterexample :
    cvState.tts = some cvModel
    ∧ (_reload_model failLoad "Qwen/New" cvState).2 = .error (.loadFailure "boom")
    ∧ (_reload_model failLoad "Qwen/New" cvState).1.tts = none
    ∧ (_reload_model failLoad "Qwen/New" cvState).1.reloading = false
    ∧ (run_instruct (_reload_model failLoad "Qwen/New" cvState).1 okEngine
        "hi" "Auto" "Vivian" "" advDefault).status = "❌ Model not loaded." :=
  ⟨rfl, rfl, rfl, rfl, rfl⟩

/-- C3 (amended): when construction of the new resource fails, the
coordinator clears the reconfiguring flag, wakes waiters, and propagates the
load failure — but the current handle was already cleared (and the old
engine released) before the construction attempt, so `current` is absent
afterwards and a subsequent dispatch reports the model as not loaded rather
than succeeding against the old handle. -/
theorem c3_failed_reload_leaves_no_current (s : CoordState)
    (load : String → Except String TTSModel) (ckpt e : String)
    (hc : pyStrip ckpt ≠ "") (hl : load (pyStrip ckpt) = .error e)
    (_hd : s.active_jobs = 0) :
    _reload_model load ckpt s
      = ({ clearForReload { s with reloading := true } with reloading := false },
          .error (.loadFailure e))
    ∧ (_reload_model load ckpt s).1.tts = none
    ∧ (_reload_model load ckpt s).1.reloading = false
    ∧ (_reload_model load ckpt s).1.active_jobs = s.active_jobs := by
  have h1 : _reload_model load ckpt s
      = ({ clearForReload { s with reloading := true } with reloading := false },
          .error (.loadFailure e)) := by
    simp [_reload_model, hc, hl]
  refine ⟨h1, ?_, ?_, ?_⟩ <;> (first | (rw [h1]; rfl) | rw [h1])

theorem c3_failed_reload_leaves_no_current_witness :
    _reload_model failLoad "Qwen/New" cvState
      = ({ clearForReload { cvState with reloading := true } with reloading := false },
          .error (.loadFailure "boom"))
    ∧ (_reload_model failLoad "Qwen/New" cvState).1.tts = none
    ∧ (_reload_model failLoad "Qwen/New" cvState).1.reloading = false
    ∧ (_reload_model failLoad "Qwen/New" cvState).1.active_jobs = cvState.active_jobs :=
  c3_failed_reload_leaves_no_current cvState failLoad "Qwen/New" "boom"
    (by decide) rfl rfl

/-- C4 counterexample: the claim asserts a reconfigure issued while
`reloading` is already true fails immediately with `AlreadyReconfiguring`,
but `_reload_model` performs no such check: started from a state whose
reloading flag is already set, the call proceeds, succeeds, publishes the
new state and clears the flag — no `AlreadyReconfiguring` outcome exists in
the code. -/
theorem c4_counterexample :
    busyState.reloading = true
    ∧ (_reload_model okLoad "Qwen/New" busyState).2 = .ok cvBuilt
    ∧ (_reload_model okLoad "Qwen/New" busyState).2 ≠ .error .alreadyReconfiguring
    ∧ (_reload_model okLoad "Qwen/New" busyState).1.reloading = false
    ∧ (_reload_model okLoad "Qwen/New" busyState).1.tts = some cvModel := by
  refine ⟨rfl, ?_, ?_, rfl, rfl⟩ <;> decide

/-- C4 (amended): a reconfigure call made while another reconfigure is in
progress does not fail with `AlreadyReconfiguring` — no reconfigure call
ever produces that outcome, and `_reload_model` never reads the reloading
flag: its behaviour on a state with the flag already set is identical to its
behaviour with the flag clear (it sets the flag unconditionally and proceeds
to drain and swap).  Reconfigure exclusion is not enforced in the demo; the
REST wrapper serializes reloads by blocking on `model_lock` (queuing) rather
than failing. -/
theorem c4_reload_never_already_reconfiguring (s : CoordState)
    (load : String → Except String TTSModel) (ckpt : String)
    (hc : pyStrip ckpt ≠ "") :
    (_reload_model load ckpt s).2 ≠ .error .alreadyReconfiguring
    ∧ _reload_model load ckpt { s with reloading := true }
        = _reload_model load ckpt s := by
  constructor
  · simp only [_reload_model]
    split
    · simp
    · rcases hl : load (pyStrip ckpt) with e | t
      · simp [hl]
      · rcases hb : _build_model_state t (pyStrip ckpt) with e | b
        · simp [hl, hb]
        · simp [hl, hb]
  · simp only [_reload_model, if_neg hc]

theorem c4_reload_never_already_reconfiguring_witness :
    (_reload_model okLoad "Qwen/New" cvState).2 ≠ .error .alreadyReconfiguring
    ∧ _reload_model okLoad "Qwen/New" { cvState with reloading := true }
        = _reload_model okLoad "Qwen/New" cvState :=
  c4_reload_never_already_reconfiguring cvState okLoad "Qwen/New" (by decide)

/-- C10: a reconfigure called with an empty or whitespace-only checkpoint
raises `ValueError` before the lock is taken: no coordinator state is
mutated — the reloading flag, `active_jobs` and the current handle are all
exactly as before the call. -/
theorem c10_blank_checkpoint_rejected_before_mutation (s : CoordState)
    (load : String → Except String TTSModel) (ckpt : String)
    (hb : pyStrip ckpt = "") :
    _reload_model load ckpt s
      = (s, .error (.invalidCheckpoint "Checkpoint is required."))
    ∧ (_reload_model load ckpt s).1.reloading = s.reloading
    ∧ (_reload_model load ckpt s).1.active_jobs = s.active_jobs
    ∧ (_reload_model load ckpt s).1.tts = s.tts := by
  have h1 : _reload_model load ckpt s
      = (s, .error (.invalidCheckpoint "Checkpoint is required.")) := by
    simp [_reload_model, hb]
  refine ⟨h1, ?_, ?_, ?_⟩ <;> rw [h1]

theorem c10_blank_checkpoint_rejected_before_mutation_witness :
    _reload_model okLoad "   " cvState
      = (cvState, .error (.invalidCheckpoint "Checkpoint is required."))
    ∧ (_reload_model okLoad "   " cvState).1.reloading = cvState.reloading
    ∧ (_reload_model okLoad "   " cvState).1.active_jobs = cvState.active_jobs
    ∧ (_reload_model okLoad "   " cvState).1.tts = cvState.tts :=
  c10_blank_checkpoint_rejected_before_mutation cvState okLoad "   " (by decide)
